import Mathlib

/-!
Verification development for the KEA 4-step pipeline orchestrator
(backend/app/services/pipeline.py and its helpers in
backend/app/utils/message_helpers.py and backend/app/utils/normalize.py).

Python-specific primitives are embedded as follows:
- Python `dict` becomes an association list (`PyDict`) whose insert updates
  an existing key in place and appends new keys, matching CPython's
  insertion-order semantics.
- `str.strip()` becomes `pyStrip` over the ASCII whitespace characters.
- Python float arithmetic in the synthesizer election is modelled as exact
  rational arithmetic over `ℚ`.
- Calls into the regex engine, `orjson.loads` and the external `json_repair`
  library are abstracted as explicit oracle parameters: a theorem quantifying
  over all oracle values covers every outcome those primitives can produce.
-/

/-- Association list standing for a Python `dict` (insertion ordered). -/
abbrev PyDict (α : Type) : Type := List (String × α)

/-- Python `d.get(k)` / `k in d`: first (unique) binding of `k`. -/
def dget? {α : Type} (d : PyDict α) (k : String) : Option α :=
  (d.find? (fun kv => kv.1 == k)).map Prod.snd

/-- Python `d[k] = v`: replace the binding of `k` in place, else append. -/
def dinsert {α : Type} (d : PyDict α) (k : String) (v : α) : PyDict α :=
  if d.any (fun kv => kv.1 == k) then
    d.map (fun kv => if kv.1 == k then (k, v) else kv)
  else
    d ++ [(k, v)]

/-- Key list of a Python dict, in iteration (= insertion) order. -/
def dkeys {α : Type} (d : PyDict α) : List String := d.map Prod.fst

/-- Python `d.setdefault(k, []).append(v)` for a dict of string lists. -/
def dappend (d : PyDict (List String)) (k v : String) : PyDict (List String) :=
  match dget? d k with
  | some l => dinsert d k (l ++ [v])
  | none => d ++ [(k, [v])]

/-- The characters removed by Python `str.strip()` (ASCII subset). -/
def isPyWs (c : Char) : Bool :=
  c == ' ' || c == '\t' || c == '\n' || c == '\r' || c == '\x0b' || c == '\x0c'

/-- Python `str.strip()`. -/
def pyStrip (s : String) : String :=
  String.mk (((s.toList.dropWhile isPyWs).reverse.dropWhile isPyWs).reverse)

/-- Python `str.startswith(pre)`, via a structurally recursive prefix
test so that concrete instances evaluate inside the kernel. -/
def pyStartsWith (s pre : String) : Bool :=
  pre.toList.isPrefixOf s.toList

/-- Python `max(l, key := f)`: the first element of `l` attaining the
maximal key (a later element replaces the current best only when its key is
strictly larger). Returns `none` on the empty list (Python raises). -/
def pyArgmax (f : String → ℚ) : List String → Option String
  | [] => none
  | x :: xs => some (xs.foldl (fun c y => if f c < f y then y else c) x)

/-!  ## Message normaliser (backend/app/utils/message_helpers.py)

A universal message is a dict with a `role`, a `content` that is a string, a
list of parts, missing, or of some other type, plus possibly further keys
(`extras`).  A part is a dict `(type := text, text := t)` (a missing `text`
key defaults to `""`), a dict `(type := image, ...)`, or anything else.
Parts whose `text` value is not a string are outside the model (joining them
would raise `TypeError` in the source). -/

inductive MsgPart where
  | text (t : String)
  | image
  | other
  deriving DecidableEq

inductive MsgContent where
  | str (s : String)
  | parts (l : List MsgPart)
  | other
  deriving DecidableEq

structure Message where
  role : Option String := none
  content : Option MsgContent := none
  extras : List (String × String) := []
  deriving DecidableEq

def isTextPart : MsgPart → Bool
  | MsgPart.text _ => true
  | _ => false

def isImagePart : MsgPart → Bool
  | MsgPart.image => true
  | _ => false

/-- The `text` fields of the text parts, in order. -/
def textParts (l : List MsgPart) : List String :=
  l.filterMap (fun p => match p with | MsgPart.text t => some t | _ => none)

/-- `has_images` from message_helpers.py. -/
def has_images (m : Message) : Bool :=
  match m.content with
  | some (MsgContent.str _) => false
  | some (MsgContent.parts l) => l.any isImagePart
  | _ => false

/-- `extract_text_only` from message_helpers.py: string content is passed
through (`message.copy()`), list content is reduced to the `\n`-join of the
text parts, stripped, with `"(image)"` substituted when that join is falsy;
the result keeps only the `role` and `content` keys. -/
def extract_text_only (m : Message) : Message :=
  match m.content with
  | some (MsgContent.str _) => m
  | some (MsgContent.parts l) =>
    let tc := pyStrip (String.intercalate "\n" (textParts l))
    { role := m.role
      content := some (MsgContent.str (if tc == "" then "(image)" else tc))
      extras := [] }
  | _ => m

/-- Claim C6 as stated: for list content the resulting text is the plain
`\n`-join of the text parts (whenever a text part exists), and `"(image)"`
when all parts are images. -/
def C6_claim : Prop :=
  ∀ (m : Message) (ps : List MsgPart), m.content = some (MsgContent.parts ps) →
    ((ps.any isTextPart = true →
       (extract_text_only m).content =
         some (MsgContent.str (String.intercalate "\n" (textParts ps)))) ∧
     (ps.all isImagePart = true →
       (extract_text_only m).content = some (MsgContent.str "(image)")))

/-!  ## Tolerant parser (backend/app/utils/normalize.py and the
`_clean_answer_field` / `_extract_text_fallback` / `_parse_stepN_response`
helpers of backend/app/services/pipeline.py) -/

/-- JSON values as produced by `orjson.loads` / `json_repair.repair_json`.
Python `bool` is a subclass of `int`, so `b` counts as a primitive for the
`isinstance(item, (str, int, float))` check. -/
inductive JVal where
  | null
  | b (v : Bool)
  | num (q : ℚ)
  | s (v : String)
  | arr (l : List JVal)
  | obj (o : List (String × JVal))

def asObj? : JVal → Option (PyDict JVal)
  | JVal.obj o => some o
  | _ => none

/-- `isinstance(item, (str, int, float))` (recall `bool <: int`). -/
def isPrimJ : JVal → Bool
  | JVal.s _ => true
  | JVal.num _ => true
  | JVal.b _ => true
  | _ => false

def isStrJ : JVal → Bool
  | JVal.s _ => true
  | _ => false

def isNumJ : JVal → Bool
  | JVal.num _ => true
  | _ => false

/-- The keys recognised by the list-unwrap path of `repair_llm_json`. -/
def RECOGNISED_KEYS : List String :=
  ["atomic_facts", "answer", "ranking", "final_answer", "evaluations"]

def hasRecognisedKey (d : PyDict JVal) : Bool :=
  RECOGNISED_KEYS.any (fun k => d.any (fun kv => kv.1 == k))

/-- The list-unwrapping branch of `repair_llm_json` (normalize.py lines
55-77): single-dict element, first dict with a recognised key (else first
dict), or a list of primitives wrapped as `atomic_facts`. -/
def unwrapRepairedList (l : List JVal) : Option (PyDict JVal) :=
  if l.length == 1 && (l.head?.elim false (fun v => (asObj? v).isSome)) then
    l.head?.bind asObj?
  else
    let dicts := l.filterMap asObj?
    if dicts.isEmpty = false then
      match dicts.find? hasRecognisedKey with
      | some d => some d
      | none => dicts.head?
    else if l.all isPrimJ then
      some [("atomic_facts", JVal.arr l), ("answer", JVal.s "")]
    else
      none

/-- `repair_llm_json` from normalize.py.  The call into the external
`json_repair.repair_json` library is abstracted by the `repaired` oracle
(`none` = the call raised); everything after it is translated from the
source: empty/whitespace-only input short-circuits to `None`, a dict result
is returned, a list result is unwrapped, anything else yields `None`. -/
def repair_llm_json (raw : String) (repaired : Option JVal) : Option (PyDict JVal) :=
  if raw = "" ∨ pyStrip raw = "" then none
  else
    match repaired with
    | none => none
    | some (JVal.obj o) => some o
    | some (JVal.arr l) => unwrapRepairedList l
    | some _ => none

/-- Oracle for `_clean_answer_field`: `jsonEarly` is the value returned by
the `orjson`-based try-block when it returns early (`none` = it fell
through, by exception or because no nested answer key matched);
`regexContent` is `match.group(1)` after the two trailing-artifact `re.sub`
passes when the salvage regex matched (`none` = no match). -/
structure CleanOracle where
  jsonEarly : Option String := none
  regexContent : Option String := none
  deriving DecidableEq

/-- `_clean_answer_field` from pipeline.py (string branch; non-string input
is stringified before this point).  Control flow from the source: only
inputs whose stripped text starts with a code fence or a brace enter the
unwrapping path, the regex salvage applies only to brace-prefixed text, and
its cleaned content is accepted only when non-empty and longer than five
characters. -/
def clean_answer_field (value : String) (o : CleanOracle) : String :=
  let text := pyStrip value
  if pyStartsWith text "\x60\x60\x60" || pyStartsWith text "\x7b" then
    match o.jsonEarly with
    | some r => r
    | none =>
      if pyStartsWith text "\x7b" then
        match o.regexContent with
        | some content =>
          if content ≠ "" ∧ content.length > 5 then pyStrip content else value
        | none => value
      else value
  else value

/-- Oracle for `_extract_text_fallback`: `p0` is the cleaned content of the
markdown-fence salvage regex (pattern 0), `p1` the value returned by the
valid-JSON extraction (pattern 1), `p2` the value returned by the complete
markdown-block pattern (pattern 2), `p3` the cleaned content of the direct
JSON-structure regex (pattern 3); `none` always means that the pattern did
not produce a return value. -/
structure FallbackOracle where
  p0 : Option String := none
  p1 : Option String := none
  p2 : Option String := none
  p3 : Option String := none
  deriving DecidableEq

/-- `_extract_text_fallback` from pipeline.py: four salvage patterns tried
in order, falling back to the stripped raw text.  Patterns 0 and 3 (the
regex salvage paths) accept their cleaned content only when it is non-empty
and longer than five characters. -/
def extract_text_fallback (raw : String) (o : FallbackOracle) : String :=
  let text := pyStrip raw
  let r0 : Option String :=
    if pyStartsWith text "\x60\x60\x60" then
      match o.p0 with
      | some content =>
        if content ≠ "" ∧ content.length > 5 then some (pyStrip content) else none
      | none => none
    else none
  match r0 with
  | some r => r
  | none =>
    match o.p1 with
    | some r => r
    | none =>
      match o.p2 with
      | some r => r
      | none =>
        let r3 : Option String :=
          if pyStartsWith text "\x7b" then
            match o.p3 with
            | some content =>
              if content ≠ "" ∧ content.length > 5 then some (pyStrip content) else none
            | none => none
          else none
        match r3 with
        | some r => r
        | none => text

/-!  ## Stage records (backend/app/models/pipeline.py) -/

structure Step1R where
  provider : String
  answer : String
  confidence : ℚ := 1/2
  atomic_facts : List String := []
  raw_response : String := ""
  deriving DecidableEq

structure Step2R where
  provider : String
  improved_answer : String
  confidence : ℚ := 1/2
  improvements : List String := []
  raw_response : String := ""
  deriving DecidableEq

structure EvalR where
  score : ℤ
  strengths : String := ""
  weaknesses : String := ""
  deriving DecidableEq

structure Step3R where
  provider : String
  ranking : List String := []
  predicted_winner : String := ""
  evaluations : PyDict EvalR := []
  flagged_facts : List String := []
  consensus_facts : List String := []
  raw_response : String := ""
  deriving DecidableEq

structure Step4R where
  provider : String
  final_answer : String
  confidence : ℚ := 1/2
  sources_used : List String := []
  excluded : List String := []
  raw_response : String := ""
  deriving DecidableEq

/-!  ## Stage-response parsers (`_parse_stepN_response`, pipeline.py)

Each parser wraps its body in `try/except Exception`.  The candidate JSON
text (a regex extraction) and the `orjson.loads` result are oracles; the
repair pass is the `repair_llm_json` embedding above; the mapping of a
successfully obtained JSON value into the stage record (which may itself
raise, e.g. a pydantic validation error) is abstracted as a `body` oracle
where `none` means "the body raised".  Any exception anywhere in the body
lands in the `except` branch, which builds the fallback record — so the
parsers can never return `none` (Python `None`). -/

def fallbackStep1 (provider raw : String) (fo : FallbackOracle) : Step1R :=
  { provider := provider
    answer := extract_text_fallback raw fo
    confidence := 1/2
    atomic_facts := []
    raw_response := raw }

def fallbackStep2 (provider raw : String) (fo : FallbackOracle) : Step2R :=
  { provider := provider
    improved_answer := extract_text_fallback raw fo
    confidence := 1/2
    improvements := []
    raw_response := raw }

def fallbackStep3 (provider raw : String) : Step3R :=
  { provider := provider
    ranking := []
    predicted_winner := ""
    evaluations := []
    flagged_facts := []
    consensus_facts := []
    raw_response := raw }

def fallbackStep4 (provider raw : String) (fo : FallbackOracle) : Step4R :=
  { provider := provider
    final_answer := extract_text_fallback raw fo
    confidence := 1/2
    sources_used := []
    excluded := []
    raw_response := raw }

/-- Shared shape of `_parse_stepN_response`: fast parse, then repair, then
the field-mapping body; every failure path produces the fallback record. -/
def parseWith {α : Type} (jsonStr : String) (fastParse : Option JVal)
    (repairedOracle : Option JVal) (body : JVal → Option α) (fallback : α) :
    Option α :=
  match (match fastParse with
         | some v => some v
         | none => (repair_llm_json jsonStr repairedOracle).map JVal.obj) with
  | some d =>
    match body d with
    | some r => some r
    | none => some fallback
  | none => some fallback

def parse_step1_response (provider raw jsonStr : String) (fastParse : Option JVal)
    (repairedOracle : Option JVal) (body : JVal → Option Step1R)
    (fo : FallbackOracle) : Option Step1R :=
  parseWith jsonStr fastParse repairedOracle body (fallbackStep1 provider raw fo)

def parse_step2_response (provider raw jsonStr : String) (fastParse : Option JVal)
    (repairedOracle : Option JVal) (body : JVal → Option Step2R)
    (fo : FallbackOracle) : Option Step2R :=
  parseWith jsonStr fastParse repairedOracle body (fallbackStep2 provider raw fo)

def parse_step3_response (provider raw jsonStr : String) (fastParse : Option JVal)
    (repairedOracle : Option JVal) (body : JVal → Option Step3R) : Option Step3R :=
  parseWith jsonStr fastParse repairedOracle body (fallbackStep3 provider raw)

def parse_step4_response (provider raw jsonStr : String) (fastParse : Option JVal)
    (repairedOracle : Option JVal) (body : JVal → Option Step4R)
    (fo : FallbackOracle) : Option Step4R :=
  parseWith jsonStr fastParse repairedOracle body (fallbackStep4 provider raw fo)

/-!  ## Done-event payload builders (the `done_data_builder` lambdas of
`_run_step1` ... `_run_step4` in pipeline.py).  Only the fields the claims
inspect are carried; in every builder `success` is `p is not None`. -/

structure Step1DoneData where
  success : Bool
  confidence : Option ℚ
  facts_count : Nat
  deriving DecidableEq

def step1DoneData (p : Option Step1R) : Step1DoneData :=
  { success := p.isSome
    confidence := p.map Step1R.confidence
    facts_count := p.elim 0 (fun r => r.atomic_facts.length) }

structure Step2DoneData where
  success : Bool
  confidence : Option ℚ
  deriving DecidableEq

def step2DoneData (p : Option Step2R) : Step2DoneData :=
  { success := p.isSome
    confidence := p.map Step2R.confidence }

structure Step3DoneData where
  success : Bool
  ranking : List String
  flagged_count : Nat
  deriving DecidableEq

def step3DoneData (p : Option Step3R) : Step3DoneData :=
  { success := p.isSome
    ranking := p.elim [] Step3R.ranking
    flagged_count := p.elim 0 (fun r => r.flagged_facts.length) }

structure Step4DoneData where
  success : Bool
  final_answer : Option String
  confidence : Option ℚ
  deriving DecidableEq

def step4DoneData (p : Option Step4R) : Step4DoneData :=
  { success := p.isSome
    final_answer := p.map Step4R.final_answer
    confidence := p.map Step4R.confidence }

/-- The `done` branch of the fan-out event loop (pipeline.py lines
327-337): a truthy parse result is stored under the provider's name.
A pydantic record instance is always truthy, so `some r` is stored. -/
def storeOnDone {α : Type} (store : PyDict α) (name : String) (p : Option α) :
    PyDict α :=
  match p with
  | some r => dinsert store name r
  | none => store

/-!  ## Providers (backend/app/providers/base.py) -/

/-- The descriptor data the orchestrator reads off a provider adapter.
`supports_vision` defaults to true and `is_free_tier` to false in
`BaseProvider`; subclasses override them. -/
structure Provider where
  name : String
  supportsVision : Bool := true
  isFreeTier : Bool := false
  deriving DecidableEq

/-- pipeline.py line 53. -/
def MAX_RETRY_ATTEMPTS : Nat := 1

/-- pipeline.py line 55 (`2.0` seconds, modelled exactly). -/
def RETRY_BASE_DELAY : ℚ := 2

/-- pipeline.py line 58: `timeout_multiplier` from base.py. -/
def timeout_multiplier (p : Provider) : ℚ :=
  if p.isFreeTier then 3 else 1

/-!  ## Fan-out error handling (pipeline.py lines 339-372) -/

inductive ProviderEvent where
  | chunk (pfx providerName content : String)
  | doneEv (pfx providerName : String) (success : Bool)
  | errorEv (pfx providerName errMsg : String)
  | retryEv (pfx providerName : String) (attempt : Nat) (delay : ℚ)
  | synthesizerEv (providerName label : String)
  deriving DecidableEq

/-- Result of handling one `error` queue item. -/
structure ErrorHandling where
  retryCounts : PyDict Nat
  stageErrors : PyDict (List String)
  event : ProviderEvent
  markedDone : Bool
  retryScheduled : Bool
  deriving DecidableEq

/-- The `elif event_type == "error"` branch of
`_run_providers_concurrently`: retry exactly when the provider is found,
is free tier, has a retry count below `MAX_RETRY_ATTEMPTS`, and the failing
attempt is not itself a retry; the retry delay is
`RETRY_BASE_DELAY * 2 ^ retry_count` and the retry event carries
`attempt = retry_count + 1`; otherwise the error is recorded against the
stage, an error event is emitted and the provider is marked done. -/
def handleProviderError (providersByName : PyDict Provider)
    (errorKey eventPfx : String) (retryCounts : PyDict Nat)
    (stageErrors : PyDict (List String)) (providerName errData : String)
    (isRetry : Bool) : ErrorHandling :=
  let provider := dget? providersByName providerName
  let retryCount := (dget? retryCounts providerName).getD 0
  let shouldRetry :=
    (provider.elim false Provider.isFreeTier)
      && decide (retryCount < MAX_RETRY_ATTEMPTS) && !isRetry
  if shouldRetry then
    { retryCounts := dinsert retryCounts providerName (retryCount + 1)
      stageErrors := stageErrors
      event := ProviderEvent.retryEv eventPfx providerName (retryCount + 1)
        (RETRY_BASE_DELAY * 2 ^ retryCount)
      markedDone := false
      retryScheduled := true }
  else
    { retryCounts := retryCounts
      stageErrors := dappend stageErrors errorKey (providerName ++ ": " ++ errData)
      event := ProviderEvent.errorEv eventPfx providerName errData
      markedDone := true
      retryScheduled := false }

/-!  ## Pipeline state and summary (backend/app/models/pipeline.py,
`_get_summary` in pipeline.py) -/

structure PipelineState where
  question : String := ""
  step1_responses : PyDict Step1R := []
  step2_responses : PyDict Step2R := []
  step3_responses : PyDict Step3R := []
  step4_response : Option Step4R := none
  current_step : Nat := 1
  errors : PyDict (List String) := []
  label_to_provider : PyDict String := []
  provider_to_label : PyDict String := []
  deriving DecidableEq

structure Summary where
  step1_count : Nat := 0
  step2_count : Nat := 0
  step3_count : Nat := 0
  has_final : Bool := false
  final_answer : Option String := none
  final_confidence : Option ℚ := none
  synthesizer_provider : Option String := none
  errors : PyDict (List String) := []
  deriving DecidableEq

/-- `_get_summary` from pipeline.py. -/
def getSummary (st : PipelineState) : Summary :=
  { step1_count := st.step1_responses.length
    step2_count := st.step2_responses.length
    step3_count := st.step3_responses.length
    has_final := st.step4_response.isSome
    final_answer := st.step4_response.map Step4R.final_answer
    final_confidence := st.step4_response.map Step4R.confidence
    synthesizer_provider := st.step4_response.map Step4R.provider
    errors := st.errors }

/-!  ## Synthesizer election (`_select_synthesizer`, pipeline.py lines
523-599).

The three tally dicts are built by one loop over the stage-3 records; the
final `max` runs over the keys of `sp_scores`, which are inserted in the
iteration order of the Python *set* `set(borda_scores.keys())` — a
hash-dependent order that is some permutation of the Borda keys.  That
order is passed in explicitly as `order`. -/

/-- Tally of actual first-place votes (`response.ranking[0]`). -/
def actualFirstPlace (st : PipelineState) : PyDict ℤ :=
  st.step3_responses.foldl
    (fun d kv =>
      match kv.2.ranking.head? with
      | some firstLabel =>
        let fp := (dget? st.label_to_provider firstLabel).getD firstLabel
        dinsert d fp ((dget? d fp).getD 0 + 1)
      | none => d)
    []

/-- Tally of predicted first-place votes (`response.predicted_winner`). -/
def predictedFirstPlace (st : PipelineState) : PyDict ℤ :=
  st.step3_responses.foldl
    (fun d kv =>
      if kv.2.predicted_winner ≠ "" then
        let pp := (dget? st.label_to_provider kv.2.predicted_winner).getD
          kv.2.predicted_winner
        dinsert d pp ((dget? d pp).getD 0 + 1)
      else d)
    []

/-- Borda tally for one ranking: position `i` of `N` earns `N - i` points. -/
def bordaAddRanking (l2p : PyDict String) (d : PyDict ℤ) (ranking : List String) :
    PyDict ℤ :=
  (ranking.enum).foldl
    (fun d pl =>
      let pn := (dget? l2p pl.2).getD pl.2
      let points : ℤ := (ranking.length : ℤ) - (pl.1 : ℤ)
      dinsert d pn ((dget? d pn).getD 0 + points))
    d

/-- Borda tally over all stage-3 records. -/
def bordaScores (st : PipelineState) : PyDict ℤ :=
  st.step3_responses.foldl
    (fun d kv => bordaAddRanking st.label_to_provider d kv.2.ranking)
    []

/-- `sp_score + borda * 0.1` for one provider (exact rationals for the
source's float arithmetic). -/
def spScore (st : PipelineState) (p : String) : ℚ :=
  (((dget? (actualFirstPlace st) p).getD 0 : ℤ) : ℚ)
    - (((dget? (predictedFirstPlace st) p).getD 0 : ℤ) : ℚ)
    + (((dget? (bordaScores st) p).getD 0 : ℤ) : ℚ) * (1 / 10)

/-- `_select_synthesizer`.  `order` is the iteration order of
`set(borda_scores.keys())` (see the section comment); the winner is the
first element of `order` attaining the maximal combined score, looked up in
`providers_by_name`. -/
def selectSynthesizer (providers : List Provider) (providersByName : PyDict Provider)
    (st : PipelineState) (order : List String) : Option Provider :=
  if st.step3_responses.isEmpty then
    match st.step2_responses.find? (fun kv => (dget? providersByName kv.1).isSome) with
    | some kv => dget? providersByName kv.1
    | none => providers.head?
  else if (bordaScores st).isEmpty then
    providers.head?
  else
    match pyArgmax (spScore st) order with
    | some best => dget? providersByName best
    | none => none

/-- Claim C3 as stated: in a tie for the highest combined score the elected
provider is the first *configured* provider (iteration order of
`self.providers`) among those attaining the maximum, for every possible
set-iteration order. -/
def topTiedFirstConfigured (providers : List Provider) (st : PipelineState)
    (order : List String) : Option String :=
  (providers.map Provider.name).find?
    (fun n => decide (n ∈ order) &&
      decide (∀ z ∈ order, spScore st z ≤ spScore st n))

def C3_claim : Prop :=
  ∀ (providers : List Provider) (pbn : PyDict Provider) (st : PipelineState)
    (order : List String),
    st.step3_responses ≠ [] →
    order.Perm (dkeys (bordaScores st)) →
    (∃ x ∈ order, ∃ y ∈ order, x ≠ y ∧ spScore st x = spScore st y ∧
       ∀ z ∈ order, spScore st z ≤ spScore st x) →
    selectSynthesizer providers pbn st order =
      (topTiedFirstConfigured providers st order).bind (dget? pbn)

/-!  ## Label assignment and the orchestrator skeleton (`run_pipeline`,
pipeline.py lines 93-231) -/

/-- pipeline.py line 47. -/
def PROVIDER_LABELS : String := "ABCDEFGHIJKLMNOPQRSTUVWXYZ"

/-- The label-assignment loop (`PROVIDER_LABELS[idx]` for each provider, in
order): `none` models the `IndexError` raised when the index runs off the
26-character string. -/
def assignLabelsAux : Nat → List Provider → Option (List (String × String))
  | _, [] => some []
  | i, p :: ps =>
    match PROVIDER_LABELS.data[i]? with
    | none => none
    | some c =>
      (assignLabelsAux (i + 1) ps).map (fun rest => (p.name, String.mk [c]) :: rest)

def assignLabels (ps : List Provider) : Option (List (String × String)) :=
  assignLabelsAux 0 ps

/-- Top-level SSE events of a pipeline run.  Per-provider fan-out events
are wrapped by `providerEvent`; their exact contents are supplied by the
stage outcomes below. -/
inductive Event where
  | step_start (step : Nat) (name : String)
  | step_complete_count (step count : Nat)
  | step_complete_has (step : Nat) (hasResponse : Bool)
  | topError (providerField msg : String)
  | pipeline_complete (s : Summary)
  | providerEvent (e : ProviderEvent)
  deriving DecidableEq

/-- What one fan-out stage produced: its interleaved per-provider events,
the records stored (one per successful provider) and the stage's error
strings, all abstracted over the providers' streamed output. -/
structure StageOutcome (α : Type) where
  events : List ProviderEvent := []
  store : PyDict α := []
  errors : List String := []

/-- Sequential appends of `errors.setdefault(key, []).append(e)`. -/
def addStageErrors (d : PyDict (List String)) (key : String)
    (errs : List String) : PyDict (List String) :=
  errs.foldl (fun d e => dappend d key e) d

def notEnoughMsg (step count minP : Nat) : String :=
  "Not enough Step " ++ toString step ++ " responses (" ++ toString count
    ++ "/" ++ toString minP ++ ")"

/-- The event skeleton of `run_pipeline`: label assignment (which can raise
before any event is yielded), the vision gate, the four sequential stages,
the two minimum-provider gates after stages 1 and 2, and the terminal
summary.  Stage internals (provider streaming) are abstracted by the
`StageOutcome` parameters; the text-only projection applied to the
conversation between stages 1 and 2 does not surface in the event stream
and is not repeated here. -/
def runPipeline (providers : List Provider) (messages : List Message)
    (minProviders : Nat) (question : String)
    (o1 : StageOutcome Step1R) (o2 : StageOutcome Step2R)
    (o3 : StageOutcome Step3R) (o4events : List ProviderEvent)
    (o4resp : Option Step4R) : Except String (List Event) :=
  match assignLabels providers with
  | none => Except.error "string index out of range"
  | some ls =>
    let st0 : PipelineState :=
      { question := question
        label_to_provider := ls.foldl (fun d kv => dinsert d kv.2 kv.1) []
        provider_to_label := ls.foldl (fun d kv => dinsert d kv.1 kv.2) [] }
    let es0 := [Event.step_start 1 "Initial Responses"]
    if (messages.any has_images) = true ∧
        providers.filter (fun p => p.supportsVision) = [] then
      Except.ok (es0 ++
        [Event.topError "system"
          "No vision-capable providers available for image analysis"])
    else
      let st1 : PipelineState :=
        { st0 with
          current_step := 1
          step1_responses := o1.store
          errors := addStageErrors st0.errors "step1" o1.errors }
      let es1 := es0 ++ o1.events.map Event.providerEvent
        ++ [Event.step_complete_count 1 o1.store.length]
      if o1.store.length < minProviders then
        Except.ok (es1 ++
          [Event.topError "pipeline" (notEnoughMsg 1 o1.store.length minProviders),
           Event.pipeline_complete (getSummary st1)])
      else
        let st2 : PipelineState :=
          { st1 with
            current_step := 2
            step2_responses := o2.store
            errors := addStageErrors st1.errors "step2" o2.errors }
        let es2 := es1 ++ [Event.step_start 2 "MoA Refinement"]
          ++ o2.events.map Event.providerEvent
          ++ [Event.step_complete_count 2 o2.store.length]
        if o2.store.length < minProviders then
          Except.ok (es2 ++
            [Event.topError "pipeline" (notEnoughMsg 2 o2.store.length minProviders),
             Event.pipeline_complete (getSummary st2)])
        else
          let st3 : PipelineState :=
            { st2 with
              current_step := 3
              step3_responses := o3.store
              errors := addStageErrors st2.errors "step3" o3.errors }
          let es3 := es2 ++ [Event.step_start 3 "Peer Evaluation"]
            ++ o3.events.map Event.providerEvent
            ++ [Event.step_complete_count 3 o3.store.length]
          let st4 : PipelineState :=
            { st3 with current_step := 4, step4_response := o4resp }
          let es4 := es3 ++ [Event.step_start 4 "KEA Synthesis"]
            ++ o4events.map Event.providerEvent
            ++ [Event.step_complete_has 4 o4resp.isSome]
          Except.ok (es4 ++ [Event.pipeline_complete (getSummary st4)])

/-!  ## Concrete instances used by witnesses and counterexamples -/

def provP1 : Provider := { name := "P1" }

def provP2 : Provider := { name := "P2" }

def provP3 : Provider := { name := "P3" }

def provFree : Provider := { name := "PF", isFreeTier := true }

/-- Spec scenario 2 (claim C2): three providers labelled A, B, C. -/
def provs2ex : List Provider := [provP1, provP2, provP3]

def pbn2ex : PyDict Provider := [("P1", provP1), ("P2", provP2), ("P3", provP3)]

def r2ex1 : Step3R := { provider := "P1", ranking := ["A", "B", "C"], predicted_winner := "A" }

def r2ex2 : Step3R := { provider := "P2", ranking := ["A", "B", "C"], predicted_winner := "A" }

def r2ex3 : Step3R := { provider := "P3", ranking := ["B", "A", "C"], predicted_winner := "A" }

def st2ex : PipelineState :=
  { question := "q"
    step3_responses := [("P1", r2ex1), ("P2", r2ex2), ("P3", r2ex3)]
    label_to_provider := [("A", "P1"), ("B", "P2"), ("C", "P3")]
    provider_to_label := [("P1", "A"), ("P2", "B"), ("P3", "C")] }

/-- Tie scenario for claim C3: two evaluators, opposite rankings, no
predicted winners; both providers end with combined score 13/10. -/
def provs3ex : List Provider := [provP1, provP2]

def pbn3ex : PyDict Provider := [("P1", provP1), ("P2", provP2)]

def r3ex1 : Step3R := { provider := "P1", ranking := ["A", "B"] }

def r3ex2 : Step3R := { provider := "P2", ranking := ["B", "A"] }

def st3ex : PipelineState :=
  { question := "q"
    step3_responses := [("P1", r3ex1), ("P2", r3ex2)]
    label_to_provider := [("A", "P1"), ("B", "P2")]
    provider_to_label := [("P1", "A"), ("P2", "B")] }

/-- A trivial oracle: no salvage pattern matches. -/
def noFallback : FallbackOracle := {}

/-- A concrete stage-1 record for pipeline-skeleton witnesses. -/
def s1recA : Step1R := { provider := "P1", answer := "a" }

/-!  ## Helper lemmas -/

theorem pyFoldlMax_stay (f : String → ℚ) (c : String) (l : List String)
    (h : ∀ x ∈ l, f x ≤ f c) :
    l.foldl (fun a y => if f a < f y then y else a) c = c := by
  induction l with
  | nil => rfl
  | cons x xs ih =>
    simp only [List.foldl_cons]
    rw [if_neg (not_lt.mpr (h x (List.mem_cons_self x xs)))]
    exact ih (fun y hy => h y (List.mem_cons_of_mem _ hy))

theorem pyFoldlMax_reach (f : String → ℚ) (b : String) (l₂ : List String)
    (h2 : ∀ x ∈ l₂, f x ≤ f b) :
    ∀ (l₁ : List String) (c : String), f c < f b → (∀ x ∈ l₁, f x < f b) →
      (l₁ ++ b :: l₂).foldl (fun a y => if f a < f y then y else a) c = b := by
  intro l₁
  induction l₁ with
  | nil =>
    intro c hc _
    simp only [List.nil_append, List.foldl_cons]
    rw [if_pos hc]
    exact pyFoldlMax_stay f b l₂ h2
  | cons x xs ih =>
    intro c hc h1
    simp only [List.cons_append, List.foldl_cons]
    by_cases hx : f c < f x
    · rw [if_pos hx]
      exact ih x (h1 x (List.mem_cons_self x xs))
        (fun y hy => h1 y (List.mem_cons_of_mem _ hy))
    · rw [if_neg hx]
      exact ih c hc (fun y hy => h1 y (List.mem_cons_of_mem _ hy))

/-- `pyArgmax` returns the first element attaining the maximum. -/
theorem pyArgmax_first_max (f : String → ℚ) (l₁ : List String) (b : String)
    (l₂ : List String) (h1 : ∀ x ∈ l₁, f x < f b) (h2 : ∀ x ∈ l₂, f x ≤ f b) :
    pyArgmax f (l₁ ++ b :: l₂) = some b := by
  cases l₁ with
  | nil =>
    simp only [List.nil_append, pyArgmax]
    rw [pyFoldlMax_stay f b l₂ h2]
  | cons x xs =>
    simp only [List.cons_append, pyArgmax]
    rw [pyFoldlMax_reach f b l₂ h2 xs x (h1 x (List.mem_cons_self x xs))
      (fun y hy => h1 y (List.mem_cons_of_mem _ hy))]

/-- With a strictly dominant element, `pyArgmax` returns it, whatever the
order of a duplicate-free list. -/
theorem pyArgmax_unique_max (f : String → ℚ) (l : List String) (b : String)
    (hnd : l.Nodup) (hb : b ∈ l) (hlt : ∀ x ∈ l, x ≠ b → f x < f b) :
    pyArgmax f l = some b := by
  obtain ⟨l₁, l₂, rfl⟩ := List.append_of_mem hb
  have hb1 : b ∉ l₁ := fun hm =>
    (List.disjoint_of_nodup_append hnd) hm (List.mem_cons_self b l₂)
  apply pyArgmax_first_max
  · intro x hx
    exact hlt x (List.mem_append_left _ hx) (fun he => hb1 (he ▸ hx))
  · intro x hx
    by_cases he : x = b
    · rw [he]
    · exact le_of_lt
        (hlt x (List.mem_append_right _ (List.mem_cons_of_mem _ hx)) he)

/-!  ## Claims C6 and C7: the message normaliser -/

/-- C6 counterexample: `extract_text_only` strips the joined text, so on
the message with the single text part `" Hi"` the resulting content is
`"Hi"`, not the plain `\n`-join `" Hi"`; the claim as stated is false. -/
theorem c6_counterexample : ¬ C6_claim := by
  intro h
  have := (h { role := some "user", content := some (MsgContent.parts [MsgPart.text " Hi"]) }
    [MsgPart.text " Hi"] rfl).1 (by decide)
  exact absurd this (by decide)

/-- C6 (amended): for every message whose content is a list of parts,
`extract_text_only` returns content equal to the `\n`-join of the text
parts *stripped of leading and trailing whitespace*; when that stripped
join is empty — in particular when the message had only image parts — the
content is the literal string `"(image)"`. -/
theorem c6_amended_thm (m : Message) (ps : List MsgPart)
    (h : m.content = some (MsgContent.parts ps)) :
    ((extract_text_only m).content =
      some (MsgContent.str
        (if pyStrip (String.intercalate "\n" (textParts ps)) == "" then "(image)"
         else pyStrip (String.intercalate "\n" (textParts ps))))) ∧
    (ps.all isImagePart = true →
      (extract_text_only m).content = some (MsgContent.str "(image)")) := by
  constructor
  · simp only [extract_text_only, h]
  · intro hall
    have htp : textParts ps = [] := by
      simp only [textParts]
      rw [List.filterMap_eq_nil_iff]
      intro p hp
      have := List.all_eq_true.mp hall p hp
      cases p with
      | text t => exact absurd this (by simp [isImagePart])
      | image => rfl
      | other => exact absurd this (by simp [isImagePart])
    simp only [extract_text_only, h, htp]
    rfl

/-- C6 witness: a text+image message keeps the text `"Hi"`; an image-only
message becomes `"(image)"`. -/
theorem c6_witness :
    (({ role := some "user",
        content := some (MsgContent.parts [MsgPart.text "Hi", MsgPart.image]) } :
        Message).content = some (MsgContent.parts [MsgPart.text "Hi", MsgPart.image])) ∧
    (extract_text_only
        { role := some "user",
          content := some (MsgContent.parts [MsgPart.text "Hi", MsgPart.image]) }).content =
      some (MsgContent.str "Hi") ∧
    (extract_text_only
        { role := some "user",
          content := some (MsgContent.parts [MsgPart.image]) }).content =
      some (MsgContent.str "(image)") := by
  refine ⟨rfl, ?_, ?_⟩
  · have := (c6_amended_thm
      { role := some "user",
        content := some (MsgContent.parts [MsgPart.text "Hi", MsgPart.image]) }
      [MsgPart.text "Hi", MsgPart.image] rfl).1
    rw [this]
    decide
  · exact (c6_amended_thm
      { role := some "user",
        content := some (MsgContent.parts [MsgPart.image]) }
      [MsgPart.image] rfl).2 (by decide)

/-- C7: `extract_text_only` is idempotent — applying it twice yields the
same message as applying it once (the second application always hits the
string-content pass-through or the final copy branch). -/
theorem c7_idempotent_thm (m : Message) :
    extract_text_only (extract_text_only m) = extract_text_only m := by
  match hm : m.content with
  | some (MsgContent.str s) =>
    simp only [extract_text_only, hm]
  | some (MsgContent.parts l) =>
    simp only [extract_text_only, hm]
  | some MsgContent.other =>
    simp only [extract_text_only, hm]
  | none =>
    simp only [extract_text_only, hm]

/-- Looking up `k` after appending `(k, v)` to a dict without `k`. -/
theorem dget?_append_last {α : Type} (d : PyDict α) (k : String) (v : α)
    (h : d.any (fun kv => kv.1 == k) = false) :
    dget? (d ++ [(k, v)]) k = some v := by
  induction d with
  | nil =>
    simp only [List.nil_append, dget?]
    rw [List.find?_cons_of_pos]
    · rfl
    · simp
  | cons kv d ih =>
    simp only [List.any_cons, Bool.or_eq_false_iff] at h
    simp only [List.cons_append, dget?] at ih ⊢
    rw [List.find?_cons_of_neg _ (by simp [h.1])]
    exact ih h.2

/-- Looking up `k` after replacing its binding in place. -/
theorem dget?_map_replace {α : Type} (d : PyDict α) (k : String) (v : α)
    (h : d.any (fun kv => kv.1 == k) = true) :
    dget? (d.map (fun kv => if kv.1 == k then (k, v) else kv)) k = some v := by
  induction d with
  | nil => simp at h
  | cons kv d ih =>
    by_cases hk : kv.1 == k
    · simp only [List.map_cons, if_pos hk, dget?]
      rw [List.find?_cons_of_pos]
      · rfl
      · simp
    · simp only [List.any_cons, hk, Bool.false_or] at h
      simp only [List.map_cons, if_neg hk, dget?] at ih ⊢
      have hkf : (kv.1 == k) = false := by revert hk; cases (kv.1 == k) <;> simp
      simp only [List.find?_cons, hkf, cond_false]
      exact ih h

/-- Inserting a binding makes it the one `dget?` finds. -/
theorem dget?_dinsert_self {α : Type} (d : PyDict α) (k : String) (v : α) :
    dget? (dinsert d k v) k = some v := by
  by_cases ha : d.any (fun kv => kv.1 == k)
  · simp only [dinsert, if_pos ha]
    exact dget?_map_replace d k v ha
  · simp only [dinsert, if_neg ha]
    exact dget?_append_last d k v (by revert ha; cases (d.any fun kv => kv.1 == k) <;> simp)

/-- The stage parsers can never return `none`: every failure path lands in
the `except` branch, which builds a fallback record. -/
theorem parseWith_isSome {α : Type} (jsonStr : String) (fp ro : Option JVal)
    (body : JVal → Option α) (fb : α) :
    (parseWith jsonStr fp ro body fb).isSome = true := by
  cases fp with
  | some v =>
    cases h : body v with
    | some r => simp [parseWith, h]
    | none => simp [parseWith, h]
  | none =>
    cases hr : repair_llm_json jsonStr ro with
    | some d =>
      cases h : body (JVal.obj d) with
      | some r => simp [parseWith, hr, h]
      | none => simp [parseWith, hr, h]
    | none => simp [parseWith, hr]

/-!  ## Claim C1: parse-failure handling and the `done` event -/

/-- C1 counterexample: on raw text `""` the JSON extraction yields `""`,
the fast parse raises and the repair pass returns `None` (empty input), so
the stage-3 parser takes its `except` branch — yet the fallback record is a
real (truthy, non-`None`) `Step3Response`, so the `step3_done` event is
emitted with `success = true`, not `false` as the claim states. -/
theorem c1_counterexample :
    (step3DoneData (parse_step3_response "p" "" "" none none (fun _ => none))).success
        = true ∧
    dget? (storeOnDone [] "p" (parse_step3_response "p" "" "" none none (fun _ => none)))
        "p" = some (fallbackStep3 "p" "") := by
  constructor
  · rfl
  · rfl

/-- C1 (amended): when JSON extraction, fast parse and repair all fail, the
fallback record is still stored and `step3_done` is emitted with
`success = true` (the stage-3 parser always returns a record, so `p is not
None` never fails); for stages 1, 2 and 4 the done event likewise carries
`success = true` when the salvaged answer text is non-empty. -/
theorem c1_amended_thm (provider raw jsonStr : String) (ro : Option JVal)
    (body3 : JVal → Option Step3R) (store : PyDict Step3R) (fo : FallbackOracle)
    (body1 : JVal → Option Step1R) (body2 : JVal → Option Step2R)
    (body4 : JVal → Option Step4R)
    (fp1 fp2 fp4 ro1 ro2 ro4 : Option JVal)
    (hrep : repair_llm_json jsonStr ro = none)
    (hsal : extract_text_fallback raw fo ≠ "") :
    parse_step3_response provider raw jsonStr none ro body3 =
        some (fallbackStep3 provider raw) ∧
    (step3DoneData (parse_step3_response provider raw jsonStr none ro body3)).success
        = true ∧
    dget? (storeOnDone store provider
        (parse_step3_response provider raw jsonStr none ro body3)) provider =
      some (fallbackStep3 provider raw) ∧
    (step1DoneData (parse_step1_response provider raw jsonStr fp1 ro1 body1 fo)).success
        = true ∧
    (step2DoneData (parse_step2_response provider raw jsonStr fp2 ro2 body2 fo)).success
        = true ∧
    (step4DoneData (parse_step4_response provider raw jsonStr fp4 ro4 body4 fo)).success
        = true := by
  have h3 : parse_step3_response provider raw jsonStr none ro body3 =
      some (fallbackStep3 provider raw) := by
    simp [parse_step3_response, parseWith, hrep]
  refine ⟨h3, ?_, ?_, ?_, ?_, ?_⟩
  · rw [h3]; rfl
  · rw [h3]
    exact dget?_dinsert_self store provider (fallbackStep3 provider raw)
  · simp only [step1DoneData]
    exact parseWith_isSome _ _ _ _ _
  · simp only [step2DoneData]
    exact parseWith_isSome _ _ _ _ _
  · simp only [step4DoneData]
    exact parseWith_isSome _ _ _ _ _

/-- C1 witness: concrete parse-failure run with raw text `"hello"` (no
JSON anywhere, repair oracle fails, salvage returns `"hello"`). -/
theorem c1_witness :
    repair_llm_json "hello" none = none ∧
    extract_text_fallback "hello" noFallback ≠ "" ∧
    parse_step3_response "p" "hello" "hello" none none (fun _ => none) =
        some (fallbackStep3 "p" "hello") ∧
    (step1DoneData (parse_step1_response "p" "hello" "hello" none none
        (fun _ => none) noFallback)).success = true := by
  have h := c1_amended_thm "p" "hello" "hello" none (fun _ => none) [] noFallback
    (fun _ => none) (fun _ => none) (fun _ => none) none none none none none none
    (by rfl) (by decide)
  exact ⟨by rfl, by decide, h.1, h.2.2.2.1⟩

/-!  ## Claim C2: the spec's "surprisingly popular wins over Borda"
election scenario -/

/-- C2: with rankings `[A,B,C]`, `[A,B,C]`, `[B,A,C]` and predicted winners
`A, A, A`, the combined scores are `A = -0.2`, `B = 1.7`, `C = 0.3` and the
provider labelled `B` is elected, for every possible iteration order of the
Borda-key set. -/
theorem c2_election_thm (order : List String)
    (h : order.Perm ["P1", "P2", "P3"]) :
    spScore st2ex "P1" = -(1/5) ∧ spScore st2ex "P2" = 17/10 ∧
    spScore st2ex "P3" = 3/10 ∧
    selectSynthesizer provs2ex pbn2ex st2ex order = some provP2 := by
  have ha1 : (dget? (actualFirstPlace st2ex) "P1").getD 0 = (2 : ℤ) := by decide
  have ha2 : (dget? (actualFirstPlace st2ex) "P2").getD 0 = (1 : ℤ) := by decide
  have ha3 : (dget? (actualFirstPlace st2ex) "P3").getD 0 = (0 : ℤ) := by decide
  have hp1 : (dget? (predictedFirstPlace st2ex) "P1").getD 0 = (3 : ℤ) := by decide
  have hp2 : (dget? (predictedFirstPlace st2ex) "P2").getD 0 = (0 : ℤ) := by decide
  have hp3 : (dget? (predictedFirstPlace st2ex) "P3").getD 0 = (0 : ℤ) := by decide
  have hb1 : (dget? (bordaScores st2ex) "P1").getD 0 = (8 : ℤ) := by decide
  have hb2 : (dget? (bordaScores st2ex) "P2").getD 0 = (7 : ℤ) := by decide
  have hb3 : (dget? (bordaScores st2ex) "P3").getD 0 = (3 : ℤ) := by decide
  have hs1 : spScore st2ex "P1" = -(1/5) := by
    simp only [spScore, ha1, hp1, hb1]; norm_num
  have hs2 : spScore st2ex "P2" = 17/10 := by
    simp only [spScore, ha2, hp2, hb2]; norm_num
  have hs3 : spScore st2ex "P3" = 3/10 := by
    simp only [spScore, ha3, hp3, hb3]; norm_num
  have hmax : pyArgmax (spScore st2ex) order = some "P2" := by
    apply pyArgmax_unique_max _ _ _ (h.nodup_iff.mpr (by decide))
      (h.mem_iff.mpr (by decide))
    intro x hx hne
    have hx3 : x = "P1" ∨ x = "P2" ∨ x = "P3" := by
      simpa using h.mem_iff.mp hx
    rcases hx3 with rfl | rfl | rfl
    · rw [hs1, hs2]; norm_num
    · exact absurd rfl hne
    · rw [hs3, hs2]; norm_num
  refine ⟨hs1, hs2, hs3, ?_⟩
  simp only [selectSynthesizer]
  rw [if_neg (by decide), if_neg (by decide), hmax]
  decide

/-- C2 witness: the claim instantiated at the insertion order itself. -/
theorem c2_witness :
    (["P1", "P2", "P3"] : List String).Perm ["P1", "P2", "P3"] ∧
    spScore st2ex "P2" = 17/10 ∧
    selectSynthesizer provs2ex pbn2ex st2ex ["P1", "P2", "P3"] = some provP2 := by
  have h := c2_election_thm ["P1", "P2", "P3"] (List.Perm.refl _)
  exact ⟨List.Perm.refl _, h.2.1, h.2.2.2⟩

/-!  ## Claim C3: tie-breaking in the election -/

theorem st3ex_sp1 : spScore st3ex "P1" = 13/10 := by
  have ha : (dget? (actualFirstPlace st3ex) "P1").getD 0 = (1 : ℤ) := by decide
  have hp : (dget? (predictedFirstPlace st3ex) "P1").getD 0 = (0 : ℤ) := by decide
  have hb : (dget? (bordaScores st3ex) "P1").getD 0 = (3 : ℤ) := by decide
  simp only [spScore, ha, hp, hb]; norm_num

theorem st3ex_sp2 : spScore st3ex "P2" = 13/10 := by
  have ha : (dget? (actualFirstPlace st3ex) "P2").getD 0 = (1 : ℤ) := by decide
  have hp : (dget? (predictedFirstPlace st3ex) "P2").getD 0 = (0 : ℤ) := by decide
  have hb : (dget? (bordaScores st3ex) "P2").getD 0 = (3 : ℤ) := by decide
  simp only [spScore, ha, hp, hb]; norm_num

/-- In the tie scenario, the set-iteration order `["P2", "P1"]` elects
`P2`: `pyArgmax` keeps the first element of the iteration order on ties. -/
theorem st3ex_select_P2 :
    selectSynthesizer provs3ex pbn3ex st3ex ["P2", "P1"] = some provP2 := by
  have hmax : pyArgmax (spScore st3ex) ["P2", "P1"] = some "P2" := by
    have := pyArgmax_first_max (spScore st3ex) [] "P2" ["P1"]
      (by intro x hx; simp at hx)
      (by
        intro x hx
        have hx1 : x = "P1" := by simpa using hx
        subst hx1
        rw [st3ex_sp1, st3ex_sp2])
    simpa using this
  simp only [selectSynthesizer]
  rw [if_neg (by decide), if_neg (by decide), hmax]
  decide

/-- C3 counterexample: the claim as stated is false.  In the tie scenario
`st3ex` (both providers score 13/10), a legitimate set-iteration order is
`["P2", "P1"]` (Python string hashing is seed-dependent, so any permutation
of the Borda keys can be the set order); the election then returns `P2`,
while the first *configured* provider among the tied is `P1`. -/
theorem c3_counterexample : ¬ C3_claim := by
  intro hc
  have hperm : (["P2", "P1"] : List String).Perm (dkeys (bordaScores st3ex)) := by
    have hk : dkeys (bordaScores st3ex) = ["P1", "P2"] := by decide
    rw [hk]
    exact List.Perm.swap "P1" "P2" []
  have hball : ∀ z ∈ (["P2", "P1"] : List String),
      spScore st3ex z ≤ spScore st3ex "P1" := by
    intro z hz
    rcases List.mem_cons.mp hz with rfl | hz2
    · rw [st3ex_sp1, st3ex_sp2]
    · have hz1 : z = "P1" := by simpa using hz2
      subst hz1
      exact le_refl _
  have hex : ∃ x ∈ (["P2", "P1"] : List String),
      ∃ y ∈ (["P2", "P1"] : List String), x ≠ y ∧
      spScore st3ex x = spScore st3ex y ∧
      ∀ z ∈ (["P2", "P1"] : List String), spScore st3ex z ≤ spScore st3ex x :=
    ⟨"P1", by decide, "P2", by decide, by decide,
      by rw [st3ex_sp1, st3ex_sp2], hball⟩
  have heq := hc provs3ex pbn3ex st3ex ["P2", "P1"] (by decide) hperm hex
  have hpred : (decide (("P1" : String) ∈ (["P2", "P1"] : List String)) &&
      decide (∀ z ∈ (["P2", "P1"] : List String),
        spScore st3ex z ≤ spScore st3ex "P1")) = true := by
    rw [decide_eq_true (show ("P1" : String) ∈ ["P2", "P1"] by decide),
      decide_eq_true hball]
    rfl
  have hrhs : topTiedFirstConfigured provs3ex st3ex ["P2", "P1"] = some "P1" := by
    simp only [topTiedFirstConfigured]
    rw [show provs3ex.map Provider.name = ["P1", "P2"] from by decide]
    simp only [List.find?_cons]
    rw [hpred]
  rw [st3ex_select_P2, hrhs] at heq
  exact absurd heq (by decide)

/-- C3 (amended): the tie-break follows the iteration order of the *set*
of providers holding Borda points (a hash-dependent permutation of the
Borda keys, not the configuration order): whatever that order is, the
elected provider is its earliest element among those attaining the maximal
combined score. -/
theorem c3_amended_thm (providers : List Provider) (pbn : PyDict Provider)
    (st : PipelineState) (l₁ l₂ : List String) (a : String)
    (h3 : st.step3_responses.isEmpty = false)
    (hb : (bordaScores st).isEmpty = false)
    (h1 : ∀ x ∈ l₁, spScore st x < spScore st a)
    (h2 : ∀ x ∈ l₁ ++ a :: l₂, spScore st x ≤ spScore st a) :
    selectSynthesizer providers pbn st (l₁ ++ a :: l₂) = dget? pbn a := by
  have hmax := pyArgmax_first_max (spScore st) l₁ a l₂ h1
    (fun x hx => h2 x (List.mem_append_right _ (List.mem_cons_of_mem _ hx)))
  simp only [selectSynthesizer]
  rw [if_neg (by rw [h3]; simp), if_neg (by rw [hb]; simp), hmax]

/-- C3 amended-claim witness: in the tie scenario with set order
`["P2", "P1"]`, the earliest top scorer in the order, `P2`, is elected. -/
theorem c3_witness :
    st3ex.step3_responses.isEmpty = false ∧
    (bordaScores st3ex).isEmpty = false ∧
    selectSynthesizer provs3ex pbn3ex st3ex ([] ++ "P2" :: ["P1"]) =
      dget? pbn3ex "P2" := by
  refine ⟨by decide, by decide, ?_⟩
  apply c3_amended_thm provs3ex pbn3ex st3ex [] ["P1"] "P2" (by decide) (by decide)
  · intro x hx
    simp at hx
  · intro x hx
    have hx' : x = "P2" ∨ x = "P1" := by simpa using hx
    rcases hx' with rfl | rfl
    · exact le_refl _
    · rw [st3ex_sp1, st3ex_sp2]

/-!  ## Claim C5: the retry policy -/

/-- C5: for a provider present in the registry map, a retry is scheduled
iff it is free tier, its retry count is below `MAX_RETRY_ATTEMPTS` and the
failing attempt is not itself a retry; the retry event then carries
`attempt = retry_count + 1` and `delay = RETRY_BASE_DELAY * 2 ^ retry_count`
and the provider is not marked done; in every other case the error string is
appended to the stage's error list, an error event is emitted and the
provider is marked done. -/
theorem c5_retry_policy_thm (pbn : PyDict Provider) (errorKey eventPfx : String)
    (retryCounts : PyDict Nat) (stageErrors : PyDict (List String))
    (providerName errData : String) (isRetry : Bool) (p : Provider)
    (hp : dget? pbn providerName = some p) :
    ((handleProviderError pbn errorKey eventPfx retryCounts stageErrors
        providerName errData isRetry).retryScheduled = true ↔
      (p.isFreeTier = true ∧
        (dget? retryCounts providerName).getD 0 < MAX_RETRY_ATTEMPTS ∧
        isRetry = false)) ∧
    ((handleProviderError pbn errorKey eventPfx retryCounts stageErrors
        providerName errData isRetry).retryScheduled = true →
      (handleProviderError pbn errorKey eventPfx retryCounts stageErrors
          providerName errData isRetry).event =
        ProviderEvent.retryEv eventPfx providerName
          ((dget? retryCounts providerName).getD 0 + 1)
          (RETRY_BASE_DELAY * 2 ^ ((dget? retryCounts providerName).getD 0)) ∧
      (handleProviderError pbn errorKey eventPfx retryCounts stageErrors
          providerName errData isRetry).markedDone = false ∧
      (handleProviderError pbn errorKey eventPfx retryCounts stageErrors
          providerName errData isRetry).stageErrors = stageErrors) ∧
    ((handleProviderError pbn errorKey eventPfx retryCounts stageErrors
        providerName errData isRetry).retryScheduled = false →
      (handleProviderError pbn errorKey eventPfx retryCounts stageErrors
          providerName errData isRetry).stageErrors =
        dappend stageErrors errorKey (providerName ++ ": " ++ errData) ∧
      (handleProviderError pbn errorKey eventPfx retryCounts stageErrors
          providerName errData isRetry).event =
        ProviderEvent.errorEv eventPfx providerName errData ∧
      (handleProviderError pbn errorKey eventPfx retryCounts stageErrors
          providerName errData isRetry).markedDone = true) := by
  by_cases hf : p.isFreeTier = true <;>
    by_cases hlt : (dget? retryCounts providerName).getD 0 < MAX_RETRY_ATTEMPTS <;>
      cases isRetry <;>
        simp [handleProviderError, hp, hf, hlt]

/-- C5 witness: a fresh free-tier failure is retried with attempt 1 and
delay `2.0`; the same failure marked as a retry attempt is not. -/
theorem c5_witness :
    dget? [("PF", provFree)] "PF" = some provFree ∧
    (handleProviderError [("PF", provFree)] "step1" "step1" [] [] "PF" "boom"
        false).retryScheduled = true ∧
    (handleProviderError [("PF", provFree)] "step1" "step1" [] [] "PF" "boom"
        false).event = ProviderEvent.retryEv "step1" "PF" 1 (RETRY_BASE_DELAY * 2 ^ 0) ∧
    (handleProviderError [("PF", provFree)] "step1" "step1" [] [] "PF" "boom"
        true).retryScheduled = false ∧
    (handleProviderError [("PF", provFree)] "step1" "step1" [] [] "PF" "boom"
        true).event = ProviderEvent.errorEv "step1" "PF" "boom" := by
  have h := c5_retry_policy_thm [("PF", provFree)] "step1" "step1" [] [] "PF"
    "boom" false provFree rfl
  have h' := c5_retry_policy_thm [("PF", provFree)] "step1" "step1" [] [] "PF"
    "boom" true provFree rfl
  have hsched : (handleProviderError [("PF", provFree)] "step1" "step1" [] []
      "PF" "boom" false).retryScheduled = true :=
    h.1.mpr ⟨rfl, by decide, rfl⟩
  have hnot : (handleProviderError [("PF", provFree)] "step1" "step1" [] []
      "PF" "boom" true).retryScheduled = false := by
    rw [Bool.eq_false_iff]
    intro ht
    exact absurd (h'.1.mp ht).2.2 (by decide)
  exact ⟨rfl, hsched, (h.2.1 hsched).1, hnot, (h'.2.2 hnot).2.1⟩

/-!  ## Claim C8: unwrapping a repaired list -/

/-- C8: when the repair pass on non-empty input produces a list, a
single-element list holding a dict yields that dict; a list holding two or
more dicts yields the first dict containing a recognised key, else the
first dict; a list of strings and numbers is wrapped as
`(atomic_facts := list, answer := "")`. -/
theorem c8_repair_unwrap_thm (raw : String) (l : List JVal)
    (hne : pyStrip raw ≠ "") :
    (∀ o : PyDict JVal, l = [JVal.obj o] →
      repair_llm_json raw (some (JVal.arr l)) = some o) ∧
    (∀ (d₁ d₂ : PyDict JVal) (ds : List (PyDict JVal)),
      l.filterMap asObj? = d₁ :: d₂ :: ds →
      repair_llm_json raw (some (JVal.arr l)) =
        some (((d₁ :: d₂ :: ds).find? hasRecognisedKey).getD d₁)) ∧
    (l.all (fun v => isStrJ v || isNumJ v) = true →
      repair_llm_json raw (some (JVal.arr l)) =
        some [("atomic_facts", JVal.arr l), ("answer", JVal.s "")]) := by
  have hemp : ¬(raw = "" ∨ pyStrip raw = "") := by
    rintro (rfl | hs)
    · exact hne rfl
    · exact hne hs
  have hr : repair_llm_json raw (some (JVal.arr l)) = unwrapRepairedList l := by
    simp [repair_llm_json, hemp]
  refine ⟨?_, ?_, ?_⟩
  · intro o ho
    subst ho
    rw [hr]
    simp [unwrapRepairedList, asObj?]
  · intro d₁ d₂ ds hobjs
    have hlen2 : 2 ≤ l.length := by
      have h1 := List.length_filterMap_le asObj? l
      rw [hobjs] at h1
      simp at h1
      omega
    have hlenne : (l.length == 1) = false := beq_eq_false_iff_ne.mpr (by omega)
    rw [hr]
    simp only [unwrapRepairedList, hlenne, Bool.false_and, Bool.false_eq_true,
      if_false, hobjs]
    cases hf : (d₁ :: d₂ :: ds).find? hasRecognisedKey with
    | some d => simp [hf]
    | none => simp [hf]
  · intro hall
    have hobjs : l.filterMap asObj? = [] := by
      rw [List.filterMap_eq_nil_iff]
      intro v hv
      have := List.all_eq_true.mp hall v hv
      cases v <;> simp_all [asObj?, isStrJ, isNumJ]
    have hprim : l.all isPrimJ = true := by
      rw [List.all_eq_true] at hall ⊢
      intro v hv
      have := hall v hv
      cases v <;> simp_all [isPrimJ, isStrJ, isNumJ]
    have hcond : (l.length == 1 &&
        (l.head?.elim false (fun v => (asObj? v).isSome))) = false := by
      cases l with
      | nil => rfl
      | cons v vs =>
        have := List.all_eq_true.mp hall v (List.mem_cons_self v vs)
        cases v <;> simp_all [asObj?, isStrJ, isNumJ]
    rw [hr]
    simp [unwrapRepairedList, hcond, hobjs, hprim]

/-- C8 witness: `[{"answer": "hi"}]` unwraps to the dict itself. -/
theorem c8_witness :
    pyStrip "x" ≠ "" ∧
    repair_llm_json "x" (some (JVal.arr [JVal.obj [("answer", JVal.s "hi")]])) =
      some [("answer", JVal.s "hi")] := by
  refine ⟨by decide, ?_⟩
  exact (c8_repair_unwrap_thm "x" [JVal.obj [("answer", JVal.s "hi")]]
    (by decide)).1 [("answer", JVal.s "hi")] rfl

/-!  ## Claim C10: short salvaged answers are rejected -/

/-- C10: in the regex salvage paths, a cleaned answer of five characters
or fewer is rejected: `_clean_answer_field` returns its input unchanged,
and `_extract_text_fallback` falls through to its later patterns or returns
the stripped original text. -/
theorem c10_short_answer_thm :
    (∀ (value : String) (o : CleanOracle) (c : String),
      o.jsonEarly = none → o.regexContent = some c → c.length ≤ 5 →
      clean_answer_field value o = value) ∧
    (∀ (raw : String) (o : FallbackOracle) (c0 c3 : String),
      o.p0 = some c0 → c0.length ≤ 5 → o.p3 = some c3 → c3.length ≤ 5 →
      extract_text_fallback raw o =
        (match o.p1 with
         | some r => r
         | none =>
           match o.p2 with
           | some r => r
           | none => pyStrip raw)) := by
  constructor
  · intro value o c hje hrc hlen
    have hfalse : ¬(c ≠ "" ∧ c.length > 5) := fun h => absurd h.2 (by omega)
    simp only [clean_answer_field, hje, hrc]
    by_cases h1 : (pyStartsWith (pyStrip value) "\x60\x60\x60" ||
        pyStartsWith (pyStrip value) "\x7b") = true
    · rw [if_pos h1]
      by_cases h2 : pyStartsWith (pyStrip value) "\x7b" = true
      · rw [if_pos h2, if_neg hfalse]
      · rw [if_neg h2]
    · rw [if_neg h1]
  · intro raw o c0 c3 h0 hl0 h3 hl3
    have hf0 : ¬(c0 ≠ "" ∧ c0.length > 5) := fun h => absurd h.2 (by omega)
    have hf3 : ¬(c3 ≠ "" ∧ c3.length > 5) := fun h => absurd h.2 (by omega)
    simp only [extract_text_fallback, h0, h3]
    by_cases hs0 : pyStartsWith (pyStrip raw) "\x60\x60\x60" = true <;>
      by_cases hs3 : pyStartsWith (pyStrip raw) "\x7b" = true <;>
        simp [hs0, hs3, hf0, hf3]

/-- C10 witness: a 3-character regex content leaves the clean-answer input
unchanged; short pattern-0/3 contents push the fallback to its final
stripped-text return. -/
theorem c10_witness :
    clean_answer_field "\x7bx" { jsonEarly := none, regexContent := some "abc" } = "\x7bx" ∧
    extract_text_fallback "\x60\x60\x60x" { p0 := some "abc", p3 := some "ab" } =
      pyStrip "\x60\x60\x60x" := by
  constructor
  · exact c10_short_answer_thm.1 "\x7bx" _ "abc" rfl rfl (by decide)
  · exact c10_short_answer_thm.2 "\x60\x60\x60x" { p0 := some "abc", p3 := some "ab" }
      "abc" "ab" rfl (by decide) rfl (by decide)

/-!  ## Claim C9: label assignment -/

theorem assignLabelsAux_spec (ps : List Provider) :
    ∀ i, i + ps.length ≤ 26 →
      ∃ ls, assignLabelsAux i ps = some ls ∧
        ls.map Prod.fst = ps.map Provider.name ∧
        ls.map Prod.snd =
          ((PROVIDER_LABELS.data.drop i).take ps.length).map
            (fun c => String.mk [c]) := by
  induction ps with
  | nil =>
    intro i _
    exact ⟨[], rfl, rfl, by simp⟩
  | cons p ps ih =>
    intro i hi
    have hlen : PROVIDER_LABELS.data.length = 26 := by decide
    have hi26' : i < PROVIDER_LABELS.data.length := by
      rw [hlen]
      simp only [List.length_cons] at hi
      omega
    obtain ⟨ls, hls, hfst, hsnd⟩ := ih (i + 1)
      (by simp only [List.length_cons] at hi; omega)
    have hget : PROVIDER_LABELS.data[i]? = some (PROVIDER_LABELS.data[i]) :=
      List.getElem?_eq_getElem hi26'
    refine ⟨(p.name, String.mk [PROVIDER_LABELS.data[i]]) :: ls, ?_, ?_, ?_⟩
    · simp only [assignLabelsAux, hget, hls, Option.map_some']
    · rw [List.map_cons, List.map_cons, hfst]
    · rw [List.map_cons, hsnd, List.length_cons,
        List.drop_eq_getElem_cons hi26', List.take_succ_cons, List.map_cons]

theorem assignLabelsAux_none (ps : List Provider) :
    ∀ i, ps ≠ [] → 26 < i + ps.length → assignLabelsAux i ps = none := by
  induction ps with
  | nil =>
    intro i h _
    exact absurd rfl h
  | cons p ps ih =>
    intro i _ hi
    by_cases h26 : 26 ≤ i
    · have hg : PROVIDER_LABELS.data[i]? = none := by
        apply List.getElem?_eq_none
        rw [show PROVIDER_LABELS.data.length = 26 from by decide]
        exact h26
      simp only [assignLabelsAux, hg]
    · push_neg at h26
      have hps : ps ≠ [] := by
        intro he
        subst he
        simp only [List.length_cons, List.length_nil] at hi
        omega
      have hih := ih (i + 1) hps (by simp only [List.length_cons] at hi; omega)
      cases hg : PROVIDER_LABELS.data[i]? with
      | none => simp only [assignLabelsAux, hg]
      | some c => simp only [assignLabelsAux, hg, hih, Option.map_none']

/-- C9: with at most 26 providers every provider receives a distinct
letter (the first `n` letters of `PROVIDER_LABELS`, in order); with more
than 26 the label-assignment loop raises an index error and `run_pipeline`
fails before yielding any event. -/
theorem c9_labels_thm (providers : List Provider) (messages : List Message)
    (minP : Nat) (question : String) (o1 : StageOutcome Step1R)
    (o2 : StageOutcome Step2R) (o3 : StageOutcome Step3R)
    (o4events : List ProviderEvent) (o4resp : Option Step4R) :
    (providers.length ≤ 26 →
      ∃ ls, assignLabels providers = some ls ∧
        ls.map Prod.fst = providers.map Provider.name ∧
        ls.map Prod.snd =
          (PROVIDER_LABELS.data.take providers.length).map
            (fun c => String.mk [c]) ∧
        (ls.map Prod.snd).Nodup) ∧
    (26 < providers.length →
      runPipeline providers messages minP question o1 o2 o3 o4events o4resp =
        Except.error "string index out of range") := by
  constructor
  · intro h26
    obtain ⟨ls, hls, hfst, hsnd⟩ := assignLabelsAux_spec providers 0 (by omega)
    have hsnd' : ls.map Prod.snd =
        (PROVIDER_LABELS.data.take providers.length).map
          (fun c => String.mk [c]) := by
      rw [hsnd, List.drop_zero]
    refine ⟨ls, hls, hfst, hsnd', ?_⟩
    rw [hsnd']
    apply List.Nodup.map
    · intro a b hab
      have := congrArg String.data hab
      simpa using this
    · exact List.Nodup.sublist (List.take_sublist _ _) (by decide)
  · intro h26
    have hnone : assignLabels providers = none := by
      apply assignLabelsAux_none providers 0
      · intro he
        subst he
        simp at h26
      · omega
    simp [runPipeline, hnone]

/-- C9 witness: two providers get the distinct letters A and B; a run with
27 providers fails with the index error before any event. -/
theorem c9_witness :
    (∃ ls, assignLabels [provP1, provP2] = some ls ∧
      ls.map Prod.fst = ([provP1, provP2].map Provider.name) ∧
      ls.map Prod.snd =
        (PROVIDER_LABELS.data.take ([provP1, provP2] : List Provider).length).map
          (fun c => String.mk [c]) ∧
      (ls.map Prod.snd).Nodup) ∧
    runPipeline (List.replicate 27 provP1) [] 2 "q" {} {} {} [] none =
      Except.error "string index out of range" := by
  constructor
  · exact (c9_labels_thm [provP1, provP2] [] 2 "q" {} {} {} [] none).1 (by decide)
  · exact (c9_labels_thm (List.replicate 27 provP1) [] 2 "q" {} {} {} [] none).2
      (by decide)

/-!  ## Claim C4: the minimum-providers gates -/

/-- C4: if fewer than `min_providers` records exist after stage 1 or stage
2, the run emits the pipeline-level error event followed by the terminal
`pipeline_complete` summary (with `has_final = false` and zero counts for
the unreached stages) and nothing else; with enough records it proceeds to
the next stage, through to the stage-4 events and the final summary. -/
theorem c4_min_providers_thm (providers : List Provider) (messages : List Message)
    (minP : Nat) (question : String) (o1 : StageOutcome Step1R)
    (o2 : StageOutcome Step2R) (o3 : StageOutcome Step3R)
    (o4events : List ProviderEvent) (o4resp : Option Step4R)
    (ls : List (String × String))
    (hl : assignLabels providers = some ls)
    (hv : ¬((messages.any has_images) = true ∧
      providers.filter (fun p => p.supportsVision) = [])) :
    (o1.store.length < minP →
      runPipeline providers messages minP question o1 o2 o3 o4events o4resp =
        Except.ok
          ([Event.step_start 1 "Initial Responses"] ++
           o1.events.map Event.providerEvent ++
           [Event.step_complete_count 1 o1.store.length,
            Event.topError "pipeline" (notEnoughMsg 1 o1.store.length minP),
            Event.pipeline_complete
              { step1_count := o1.store.length
                step2_count := 0
                step3_count := 0
                has_final := false
                final_answer := none
                final_confidence := none
                synthesizer_provider := none
                errors := addStageErrors [] "step1" o1.errors }])) ∧
    (minP ≤ o1.store.length → o2.store.length < minP →
      runPipeline providers messages minP question o1 o2 o3 o4events o4resp =
        Except.ok
          ([Event.step_start 1 "Initial Responses"] ++
           o1.events.map Event.providerEvent ++
           [Event.step_complete_count 1 o1.store.length,
            Event.step_start 2 "MoA Refinement"] ++
           o2.events.map Event.providerEvent ++
           [Event.step_complete_count 2 o2.store.length,
            Event.topError "pipeline" (notEnoughMsg 2 o2.store.length minP),
            Event.pipeline_complete
              { step1_count := o1.store.length
                step2_count := o2.store.length
                step3_count := 0
                has_final := false
                final_answer := none
                final_confidence := none
                synthesizer_provider := none
                errors := addStageErrors (addStageErrors [] "step1" o1.errors)
                  "step2" o2.errors }])) ∧
    (minP ≤ o1.store.length → minP ≤ o2.store.length →
      runPipeline providers messages minP question o1 o2 o3 o4events o4resp =
        Except.ok
          ([Event.step_start 1 "Initial Responses"] ++
           o1.events.map Event.providerEvent ++
           [Event.step_complete_count 1 o1.store.length,
            Event.step_start 2 "MoA Refinement"] ++
           o2.events.map Event.providerEvent ++
           [Event.step_complete_count 2 o2.store.length,
            Event.step_start 3 "Peer Evaluation"] ++
           o3.events.map Event.providerEvent ++
           [Event.step_complete_count 3 o3.store.length,
            Event.step_start 4 "KEA Synthesis"] ++
           o4events.map Event.providerEvent ++
           [Event.step_complete_has 4 o4resp.isSome,
            Event.pipeline_complete
              { step1_count := o1.store.length
                step2_count := o2.store.length
                step3_count := o3.store.length
                has_final := o4resp.isSome
                final_answer := o4resp.map Step4R.final_answer
                final_confidence := o4resp.map Step4R.confidence
                synthesizer_provider := o4resp.map Step4R.provider
                errors := addStageErrors (addStageErrors (addStageErrors []
                  "step1" o1.errors) "step2" o2.errors) "step3" o3.errors }])) := by
  refine ⟨fun h1 => ?_, fun h1 h2 => ?_, fun h1 h2 => ?_⟩
  · simp only [runPipeline, hl, getSummary]
    rw [if_neg hv, if_pos h1]
    simp
  · simp only [runPipeline, hl, getSummary]
    rw [if_neg hv, if_neg (not_lt.mpr h1), if_pos h2]
    simp
  · simp only [runPipeline, hl, getSummary]
    rw [if_neg hv, if_neg (not_lt.mpr h1), if_neg (not_lt.mpr h2)]
    simp

/-- C4 witness: one successful stage-1 record against `min_providers = 2`
stops the run with the error and the terminal summary. -/
theorem c4_witness :
    ((List.length ([("P1", s1recA)] : PyDict Step1R)) < 2) ∧
    runPipeline [provP1, provP2] [] 2 "q" { store := [("P1", s1recA)] } {} {} [] none =
      Except.ok
        [Event.step_start 1 "Initial Responses",
         Event.step_complete_count 1 1,
         Event.topError "pipeline" (notEnoughMsg 1 1 2),
         Event.pipeline_complete
           { step1_count := 1
             step2_count := 0
             step3_count := 0
             has_final := false
             final_answer := none
             final_confidence := none
             synthesizer_provider := none
             errors := [] }] := by
  refine ⟨by decide, ?_⟩
  have h := (c4_min_providers_thm [provP1, provP2] [] 2 "q"
    { store := [("P1", s1recA)] } {} {} [] none [("P1", "A"), ("P2", "B")]
    (by decide) (by simp)).1 (by decide)
  simpa [addStageErrors] using h
